import Mathlib

/-!
Shallow embedding of the authentication core of the `health-tracker-project`
user service (Go).  Machine integers are modelled as `Nat` (seconds for time,
byte counts for lengths), UUIDs as `Nat` identifiers supplied by the caller,
bcrypt and HMAC as symbolic (collision-free) primitives, and the PostgreSQL
user directory as a list of rows.  Fallible Go functions return `Except`.
-/

/-- Equality of `Except` results is decidable when both components are. -/
instance instDecEqExcept {ε : Type} {α : Type} [DecidableEq ε] [DecidableEq α] :
    DecidableEq (Except ε α) := fun a b =>
  match a, b with
  | .error x, .error y =>
    if h : x = y then .isTrue (by rw [h])
    else .isFalse (by intro hc; cases hc; exact h rfl)
  | .error _, .ok _ => .isFalse (by intro hc; cases hc)
  | .ok _, .error _ => .isFalse (by intro hc; cases hc)
  | .ok x, .ok y =>
    if h : x = y then .isTrue (by rw [h])
    else .isFalse (by intro hc; cases hc; exact h rfl)

/-- Errors of `golang.org/x/crypto/bcrypt.GenerateFromPassword` as pinned by
`go.mod` (`golang.org/x/crypto v0.40.0`): the library rejects passwords longer
than 72 bytes with `ErrPasswordTooLong`, and salt generation can fail when the
random source fails. -/
inductive HashError
  | passwordTooLong
  | entropyFailure
deriving DecidableEq, Repr

/-- Symbolic model of a bcrypt hash string `$2a$cost$salt+digest`: the cost,
the random salt, and the key-stretched digest of the secret.  The digest is
modelled as the secret itself, which makes the hash collision-free (the
idealisation of bcrypt the spec's probabilistic wording licenses); one-wayness
is not needed for any functional property proved here. -/
structure BcryptHash where
  cost : Nat
  salt : Nat
  secret : String
deriving DecidableEq, Repr

/-- `bcrypt.DefaultCost` in `golang.org/x/crypto/bcrypt`. -/
def bcryptDefaultCost : Nat := 10

/-- `bcrypt.GenerateFromPassword(password, cost)` from
`golang.org/x/crypto v0.40.0`: fails with `ErrPasswordTooLong` when
`len(password) > 72` (bytes of the UTF-8 string), fails when the salt random
source fails (`entropyOk = false`), and otherwise produces the salted hash. -/
def GenerateFromPassword (entropyOk : Bool) (salt : Nat) (password : String)
    (cost : Nat) : Except HashError BcryptHash :=
  if password.utf8ByteSize > 72 then .error .passwordTooLong
  else if entropyOk = false then .error .entropyFailure
  else .ok ⟨cost, salt, password⟩

/-- `bcrypt.CompareHashAndPassword(hashed, password) == nil`: re-derives the
digest from the stored cost and salt and compares. -/
def CompareHashAndPassword (hashed : BcryptHash) (password : String) : Bool :=
  hashed.secret == password

/-- `models.User` (services/user-service/internal/models/user.go): id, name,
email, bcrypt password hash and timestamps. -/
structure User where
  id : Nat
  name : String
  email : String
  passwordHash : BcryptHash
  createdAt : Nat
  updatedAt : Nat
deriving DecidableEq, Repr

/-- `models.NewUser(name, email, password)`: hashes the password with
`bcrypt.GenerateFromPassword(password, bcrypt.DefaultCost)` and on success
builds the user with a fresh id (`uuid.New()`, modelled by the `freshId`
parameter) and both timestamps set to `time.Now()` (the `now` parameter). -/
def NewUser (entropyOk : Bool) (salt freshId now : Nat)
    (name email password : String) : Except HashError User :=
  match GenerateFromPassword entropyOk salt password bcryptDefaultCost with
  | .error e => .error e
  | .ok h => .ok ⟨freshId, name, email, h, now, now⟩

/-- `(*models.User).CheckPassword(password)`: true iff
`bcrypt.CompareHashAndPassword` succeeds on the stored hash. -/
def User.CheckPassword (u : User) (password : String) : Bool :=
  CompareHashAndPassword u.passwordHash password

/-- `models.UserResponse`: the sanitized DTO sent to clients; it has no
password-hash field at all. -/
structure UserResponse where
  id : Nat
  name : String
  email : String
  createdAt : Nat
deriving DecidableEq, Repr

/-- `(*models.User).ToUserResponse()`: projects id, name, email and
created-at; the password hash is dropped. -/
def User.ToUserResponse (u : User) : UserResponse :=
  ⟨u.id, u.name, u.email, u.createdAt⟩

/-- Errors of the PostgreSQL repository layer other than "no rows" ("no rows"
is not an error there: `GetUserByEmail` returns `nil, nil`). -/
inductive RepoErr
  | queryFailure
deriving DecidableEq, Repr

/-- `(*postgresUserRepository).GetUserByEmail(email)`
(services/user-service/internal/repository/user_repository.go): runs
`SELECT ... FROM users WHERE email = $1` — an exact, case-sensitive string
match over the stored rows — and returns the first matching row, or
`nil, nil` (here `.ok none`) when `sql.ErrNoRows` is hit. -/
def GetUserByEmail (db : List User) (email : String) :
    Except RepoErr (Option User) :=
  .ok (db.find? fun u => u.email == email)

/-- `models.RegisterRequest`. -/
structure RegisterRequest where
  name : String
  email : String
  password : String
deriving DecidableEq, Repr

/-- `models.LoginRequest`. -/
structure LoginRequest where
  email : String
  password : String
deriving DecidableEq, Repr

/-- Typed forms of the error strings `RegisterUser` returns
(services/user-service/internal/services/auth_service.go). -/
inductive RegError
  | validationFailed
  | alreadyExists
  | hashing (e : HashError)
  | repo (e : RepoErr)
deriving DecidableEq, Repr

/-- `(*AuthServiceImpl).RegisterUser(req)` together with the directory write
it performs: the result is the service return value, the directory after the
call, and the number of `CreateUser` writes executed.  Mirrors
auth_service.go: reject empty name/email/password; reject when
`GetUserByEmail` finds a row; build the user via `models.NewUser`; persist it
with `CreateUser`, which stamps `created_at`/`updated_at` with
`time.Now().UTC()` before inserting; answer with `newUser.ToUserResponse()`. -/
def RegisterUser (entropyOk : Bool) (salt freshId now : Nat)
    (db : List User) (req : RegisterRequest) :
    Except RegError UserResponse × List User × Nat :=
  if req.name = "" ∨ req.email = "" ∨ req.password = "" then
    (.error .validationFailed, db, 0)
  else
    match GetUserByEmail db req.email with
    | .error e => (.error (.repo e), db, 0)
    | .ok (some _) => (.error .alreadyExists, db, 0)
    | .ok none =>
      match NewUser entropyOk salt freshId now req.name req.email req.password with
      | .error e => (.error (.hashing e), db, 0)
      | .ok u =>
        let stored : User := { u with createdAt := now, updatedAt := now }
        (.ok stored.ToUserResponse, db ++ [stored], 1)

/-- The `alg` header of a JWT, as understood by `github.com/golang-jwt/jwt/v5`
(`jwt.GetSigningMethod`); `noAlg` stands for the unsigned `"none"` method. -/
inductive JwtAlg
  | HS256
  | HS384
  | HS512
  | RS256
  | ES256
  | noAlg
deriving DecidableEq, Repr

/-- Whether the method behind the `alg` header is `*jwt.SigningMethodHMAC`,
the type assertion made by the key function in `ParseJWT`
(services/user-service/internal/utils/jwt/jwt.go). -/
def JwtAlg.isHMAC : JwtAlg → Bool
  | .HS256 | .HS384 | .HS512 => true
  | _ => false

/-- The `jwt.Claims` struct of jwt.go: custom `user_id` and `username` plus
the registered `exp`, `iat` and `nbf` claims (Unix seconds). -/
structure Claims where
  userID : String
  username : String
  expiresAt : Nat
  issuedAt : Nat
  notBefore : Nat
deriving DecidableEq, Repr

/-- Symbolic HMAC value: the MAC over the header and payload segments under a
given key.  Representing the MAC by the signed data itself makes it an ideal
(unforgeable, collision-free) MAC, the standard symbolic model; two MACs are
equal exactly when key, header and payload all agree. -/
structure MacValue where
  macKey : String
  macHeader : JwtAlg
  macPayload : Claims
deriving DecidableEq, Repr

/-- `token.Method.Sign(signingString, key)` for an HMAC method: the MAC over
the header (alg) and payload (claims) segments under `key`. -/
def hmacCompute (key : String) (alg : JwtAlg) (c : Claims) : MacValue :=
  ⟨key, alg, c⟩

/-- The wire token `header.payload.signature`, with the header and payload
segments represented by their decoded content and the signature segment by
the carried MAC value. -/
structure Token where
  alg : JwtAlg
  claims : Claims
  sig : MacValue
deriving DecidableEq, Repr

/-- Error kinds of `jwt/v5` token validation as surfaced through `ParseJWT`:
`invalid` for a rejected algorithm, bad signature or malformed structure
(`ErrTokenUnverifiable`/`ErrTokenSignatureInvalid`/`ErrTokenMalformed`),
`expired` for `ErrTokenExpired`, `notYetValid` for `ErrTokenNotValidYet`.
`ParseJWT` wraps them with `fmt.Errorf("...: %w", err)`, which keeps the kind
recoverable via `errors.Is`. -/
inductive TokenError
  | invalid
  | expired
  | notYetValid
deriving DecidableEq, Repr

/-- `jwt.GenerateJWT(userID, username, expiration)` (jwt.go): claims with
`exp = now + expiration`, `iat = nbf = now`, signed with `HS256` under the
process-wide secret (`key`). -/
def GenerateJWT (key : String) (now : Nat) (userID username : String)
    (expiration : Nat) : Token :=
  let c : Claims := ⟨userID, username, now + expiration, now, now⟩
  ⟨.HS256, c, hmacCompute key .HS256 c⟩

/-- `jwt.ParseJWT(tokenString)` (jwt.go) at validation time `now`, following
`jwt/v5` `ParseWithClaims` order: the key function rejects any non-HMAC
method; the signature is verified over the header and payload segments; then
the registered claims are validated — expiry holds iff `now < exp`
(`cmp.Before(exp)`, so the `exp` instant itself is already expired) and
not-before holds iff `nbf ≤ now` (inclusive). -/
def ParseJWT (key : String) (now : Nat) (tok : Token) :
    Except TokenError Claims :=
  if tok.alg.isHMAC = false then .error .invalid
  else if tok.sig ≠ hmacCompute key tok.alg tok.claims then .error .invalid
  else if tok.claims.expiresAt ≤ now then .error .expired
  else if now < tok.claims.notBefore then .error .notYetValid
  else .ok tok.claims

/-- `models.AuthResponse`: token, sanitized user and expiry in seconds. -/
structure AuthResponse where
  token : Token
  user : UserResponse
  expiresInSec : Nat
deriving DecidableEq, Repr

/-- Typed forms of the error strings `AuthenticateUser` returns. -/
inductive AuthError
  | validationFailed
  | invalidCredentials
  | repo (e : RepoErr)
deriving DecidableEq, Repr

/-- The fixed access-token lifetime of `AuthenticateUser`:
`15 * time.Minute`, i.e. 900 seconds. -/
def tokenDurationSec : Nat := 900

/-- `(*AuthServiceImpl).AuthenticateUser(req)` (auth_service.go): reject empty
email or password; look the user up by email; when the user is `nil` **or**
`CheckPassword` fails, answer with the single `"service: invalid credentials"`
error; otherwise issue a 15-minute JWT over the user's id and name and answer
`{token, user, expires_in_sec}`.  `key` is the process-wide signing secret and
`now` the issuance instant. -/
def AuthenticateUser (key : String) (now : Nat) (db : List User)
    (req : LoginRequest) : Except AuthError AuthResponse :=
  if req.email = "" ∨ req.password = "" then .error .validationFailed
  else
    match GetUserByEmail db req.email with
    | .error e => .error (.repo e)
    | .ok none => .error .invalidCredentials
    | .ok (some user) =>
      if user.CheckPassword req.password = false then .error .invalidCredentials
      else
        .ok ⟨GenerateJWT key now (toString user.id) user.name tokenDurationSec,
             user.ToUserResponse, tokenDurationSec⟩

/-- The hardcoded package-level signing key of jwt.go:
`var jwtSecret = []byte("your-super-secret-jwt-key")`. -/
def jwtSecret : String := "your-super-secret-jwt-key"

/-- The process environment `main` reads (services/user-service/cmd/main.go):
`APP_ENV`, `DATABASE_URL`, `PORT`; `jwtSecretEnvVar` carries the value of the
`JWT_SECRET` environment variable, which no code in the repository reads. -/
structure ProcessEnv where
  appEnv : String
  databaseUrl : String
  port : String
  jwtSecretEnvVar : String
deriving DecidableEq, Repr

/-- The configuration the process runs with after startup. -/
structure RunningConfig where
  env : String
  port : String
  signingKey : String
deriving DecidableEq, Repr

/-- Startup failures `main` can fatal on before serving. -/
inductive StartupError
  | missingDatabaseUrl
deriving DecidableEq, Repr

/-- The startup logic of `main` (main.go): default `APP_ENV` to
`"development"`, fatal when `DATABASE_URL` is empty, default `PORT` to
`"8080"`, and serve.  The signing key is the package-level `jwtSecret`
constant; `JWT_SECRET` from the environment is never consulted. -/
def mainStartup (e : ProcessEnv) : Except StartupError RunningConfig :=
  let env := if e.appEnv = "" then "development" else e.appEnv
  if e.databaseUrl = "" then .error .missingDatabaseUrl
  else .ok ⟨env, if e.port = "" then "8080" else e.port, jwtSecret⟩

/-- A JSON value, as produced by `encoding/json` over the response DTOs; the
token is an opaque signed string on the wire and is kept abstract. -/
inductive JsonValue
  | str (s : String)
  | num (n : Nat)
  | tok (t : Token)
  | obj (fields : List (String × JsonValue))

/-- The `encoding/json` serialization of `models.UserResponse` as dictated by
its struct tags: exactly `id`, `name`, `email`, `created_at`. -/
def UserResponseJson (r : UserResponse) : JsonValue :=
  .obj [("id", .num r.id), ("name", .str r.name), ("email", .str r.email),
        ("created_at", .num r.createdAt)]

/-- The `encoding/json` serialization of `models.AuthResponse` as dictated by
its struct tags: `token`, `user`, `expires_in_sec`. -/
def AuthResponseJson (a : AuthResponse) : JsonValue :=
  .obj [("token", .tok a.token), ("user", UserResponseJson a.user),
        ("expires_in_sec", .num a.expiresInSec)]

/-- The top-level keys of a serialized JSON object. -/
def jsonKeys : JsonValue → List String
  | .obj fields => fields.map Prod.fst
  | _ => []

/-- A 73-character ASCII password: 73 bytes in UTF-8, one byte over bcrypt's
72-byte limit. -/
def longSecret : String := String.mk (List.replicate 73 'a')

/-- A successful `GenerateFromPassword` yields exactly the salted hash of the
input secret. -/
theorem GenerateFromPassword_ok_eq (entropyOk : Bool) (salt : Nat)
    (password : String) (cost : Nat) (h : BcryptHash)
    (hh : GenerateFromPassword entropyOk salt password cost = .ok h) :
    h = ⟨cost, salt, password⟩ := by
  unfold GenerateFromPassword at hh
  split_ifs at hh
  exact (Except.ok.injEq _ _ ▸ hh).symm

/-- `GenerateFromPassword` succeeds only within the 72-byte limit and with a
working random source. -/
theorem GenerateFromPassword_ok_conditions (entropyOk : Bool) (salt : Nat)
    (password : String) (cost : Nat) (h : BcryptHash)
    (hh : GenerateFromPassword entropyOk salt password cost = .ok h) :
    password.utf8ByteSize ≤ 72 ∧ entropyOk = true := by
  unfold GenerateFromPassword at hh
  split_ifs at hh with h1 h2
  constructor
  · omega
  · cases entropyOk
    · exact absurd rfl h2
    · rfl

/-- Characterization of a successful `NewUser`: the produced user is exactly
the fresh id, the given fields, the salted bcrypt hash of the password and
the creation timestamps, and success implies the password was within the
72-byte limit with a working random source. -/
theorem NewUser_ok_eq (entropyOk : Bool) (salt freshId now : Nat)
    (name email password : String) (u : User)
    (hu : NewUser entropyOk salt freshId now name email password = .ok u) :
    u = ⟨freshId, name, email, ⟨bcryptDefaultCost, salt, password⟩, now, now⟩ ∧
      password.utf8ByteSize ≤ 72 ∧ entropyOk = true := by
  unfold NewUser at hu
  split at hu
  · exact absurd hu (by simp)
  · rename_i h hg
    have hh := GenerateFromPassword_ok_eq entropyOk salt password bcryptDefaultCost h hg
    have hc := GenerateFromPassword_ok_conditions entropyOk salt password
      bcryptDefaultCost h hg
    cases hu
    exact ⟨by rw [hh], hc⟩

/-- Claim C4: a secret verifies against its own freshly produced bcrypt hash,
and any other secret fails verification against that hash (in the symbolic
collision-free model of bcrypt). -/
theorem CheckPassword_of_NewUser (entropyOk : Bool) (salt freshId now : Nat)
    (name email s s2 : String) (u : User)
    (hu : NewUser entropyOk salt freshId now name email s = .ok u) :
    u.CheckPassword s = true ∧ (s2 ≠ s → u.CheckPassword s2 = false) := by
  obtain ⟨hu, -, -⟩ := NewUser_ok_eq entropyOk salt freshId now name email s u hu
  subst hu
  unfold User.CheckPassword CompareHashAndPassword
  constructor
  · simp
  · intro hne
    simp [Ne.symm hne]

/-- Concrete run of `CheckPassword_of_NewUser`: the hash of `"pw"` accepts
`"pw"` and rejects `"qw"`. -/
theorem CheckPassword_of_NewUser_witness :
    (User.mk 1 "A" "a@x.com" ⟨10, 0, "pw"⟩ 0 0).CheckPassword "pw" = true ∧
    (User.mk 1 "A" "a@x.com" ⟨10, 0, "pw"⟩ 0 0).CheckPassword "qw" = false :=
  ⟨(CheckPassword_of_NewUser true 0 1 0 "A" "a@x.com" "pw" "qw"
      (User.mk 1 "A" "a@x.com" ⟨10, 0, "pw"⟩ 0 0) (by decide)).1,
   (CheckPassword_of_NewUser true 0 1 0 "A" "a@x.com" "pw" "qw"
      (User.mk 1 "A" "a@x.com" ⟨10, 0, "pw"⟩ 0 0) (by decide)).2 (by decide)⟩

/-- Claim C9 (counterexample): with a working random source — so no internal
randomness or resource failure — hashing a 73-byte secret still fails,
because `golang.org/x/crypto v0.40.0` rejects passwords over 72 bytes; the
failure is caused purely by the length of the input content. -/
theorem NewUser_fails_on_secret_content :
    NewUser true 0 1 0 "Ann" "ann@x.com" longSecret = .error .passwordTooLong ∧
    longSecret.utf8ByteSize = 73 := by decide

/-- Claim C9 (amended): hashing a secret succeeds exactly when the secret is
at most 72 UTF-8 bytes long and the internal random source works; it fails on
internal randomness failure or on over-long input, and never otherwise on the
content of the secret. -/
theorem NewUser_ok_characterization (entropyOk : Bool) (salt freshId now : Nat)
    (name email password : String) :
    (∃ u, NewUser entropyOk salt freshId now name email password = .ok u) ↔
      (password.utf8ByteSize ≤ 72 ∧ entropyOk = true) := by
  constructor
  · rintro ⟨u, hu⟩
    exact (NewUser_ok_eq entropyOk salt freshId now name email password u hu).2
  · rintro ⟨h72, hok⟩
    refine ⟨⟨freshId, name, email, ⟨bcryptDefaultCost, salt, password⟩, now, now⟩, ?_⟩
    unfold NewUser GenerateFromPassword
    rw [if_neg (by omega), if_neg (by simp [hok])]

/-- An issued token whose expiry instant has been reached is rejected as
expired. -/
theorem parse_generate_expired_of_le (key uid un : String) (t0 T t : Nat)
    (h : t0 + T ≤ t) :
    ParseJWT key t (GenerateJWT key t0 uid un T) = .error .expired := by
  unfold ParseJWT GenerateJWT
  simp only [JwtAlg.isHMAC]
  rw [if_neg (by simp), if_neg (by simp), if_pos (by simpa using h)]

/-- Claim C3: a token issued at `t0` with ttl `T` validates successfully at
every instant `t` with `t0 ≤ t < t0 + T` (inclusive not-before) and fails
with the expired error at every `t ≥ t0 + T` (the expiry instant itself is
already rejected). -/
theorem GenerateJWT_validity_window (key uid un : String) (t0 T t : Nat) :
    (t0 ≤ t → t < t0 + T →
      ParseJWT key t (GenerateJWT key t0 uid un T) = .ok ⟨uid, un, t0 + T, t0, t0⟩) ∧
    (t0 + T ≤ t →
      ParseJWT key t (GenerateJWT key t0 uid un T) = .error .expired) := by
  constructor
  · intro h1 h2
    unfold ParseJWT GenerateJWT
    simp only [JwtAlg.isHMAC]
    rw [if_neg (by simp), if_neg (by simp), if_neg (by simpa using h2),
      if_neg (by simpa using Nat.not_lt.mpr h1)]
  · exact parse_generate_expired_of_le key uid un t0 T t

/-- Concrete run of `GenerateJWT_validity_window`: a 5-second token issued at
`t0 = 0` is accepted at `t = 0` and rejected as expired at `t = 5`. -/
theorem GenerateJWT_validity_window_witness :
    ParseJWT "k" 0 (GenerateJWT "k" 0 "u" "n" 5) = .ok ⟨"u", "n", 5, 0, 0⟩ ∧
    ParseJWT "k" 5 (GenerateJWT "k" 0 "u" "n" 5) = .error .expired :=
  ⟨(GenerateJWT_validity_window "k" "u" "n" 0 5 0).1 (by decide) (by decide),
   (GenerateJWT_validity_window "k" "u" "n" 0 5 5).2 (by decide)⟩

/-- Claim C5: `ParseJWT` rejects as invalid every token whose header asserts a
non-HMAC (or unsigned) algorithm, every token whose payload segment differs
in any way from the payload an issued token was signed over, and every token
whose signature segment differs in any way from the issued signature. -/
theorem ParseJWT_rejects_wrong_alg_and_tampering (key uid un : String)
    (t0 T now : Nat) :
    (∀ (alg : JwtAlg) (c : Claims) (s : MacValue), alg.isHMAC = false →
      ParseJWT key now ⟨alg, c, s⟩ = .error .invalid) ∧
    (∀ c : Claims, c ≠ (GenerateJWT key t0 uid un T).claims →
      ParseJWT key now ⟨.HS256, c, (GenerateJWT key t0 uid un T).sig⟩ =
        .error .invalid) ∧
    (∀ s : MacValue, s ≠ (GenerateJWT key t0 uid un T).sig →
      ParseJWT key now ⟨.HS256, (GenerateJWT key t0 uid un T).claims, s⟩ =
        .error .invalid) := by
  refine ⟨?_, ?_, ?_⟩
  · intro alg c s halg
    unfold ParseJWT
    rw [if_pos halg]
  · intro c hc
    unfold ParseJWT
    rw [if_neg (by simp [JwtAlg.isHMAC]),
      if_pos (by simp only [GenerateJWT, hmacCompute] at hc ⊢
                 simp [MacValue.mk.injEq]
                 exact fun h => absurd h.symm hc)]
  · intro s hs
    unfold ParseJWT
    rw [if_neg (by simp [JwtAlg.isHMAC]),
      if_pos (by simp only [GenerateJWT, hmacCompute] at hs ⊢; exact hs)]

/-- Concrete runs of `ParseJWT_rejects_wrong_alg_and_tampering`: an unsigned
token, a payload-substituted token and a signature-substituted token are all
rejected as invalid. -/
theorem ParseJWT_rejects_wrong_alg_and_tampering_witness :
    ParseJWT "k" 0 ⟨.noAlg, ⟨"u", "n", 5, 0, 0⟩, ⟨"k", .noAlg, ⟨"u", "n", 5, 0, 0⟩⟩⟩ =
      .error .invalid ∧
    ParseJWT "k" 0 ⟨.HS256, ⟨"x", "n", 5, 0, 0⟩, (GenerateJWT "k" 0 "u" "n" 5).sig⟩ =
      .error .invalid ∧
    ParseJWT "k" 0 ⟨.HS256, (GenerateJWT "k" 0 "u" "n" 5).claims,
        ⟨"other-key", .HS256, ⟨"u", "n", 5, 0, 0⟩⟩⟩ =
      .error .invalid :=
  ⟨(ParseJWT_rejects_wrong_alg_and_tampering "k" "u" "n" 0 5 0).1 .noAlg
      ⟨"u", "n", 5, 0, 0⟩ ⟨"k", .noAlg, ⟨"u", "n", 5, 0, 0⟩⟩ (by decide),
   (ParseJWT_rejects_wrong_alg_and_tampering "k" "u" "n" 0 5 0).2.1
      ⟨"x", "n", 5, 0, 0⟩ (by decide),
   (ParseJWT_rejects_wrong_alg_and_tampering "k" "u" "n" 0 5 0).2.2
      ⟨"other-key", .HS256, ⟨"u", "n", 5, 0, 0⟩⟩ (by decide)⟩

/-- Claim C6: token validation distinguishes two error kinds — `invalid` for
a well-formed HMAC token whose signature does not verify, `expired` for a
correctly signed token past its expiry — and these kinds are distinct values
a caller can tell apart. -/
theorem ParseJWT_error_kinds_distinct (key uid un : String) (t0 T t : Nat) :
    (∀ (now : Nat) (alg : JwtAlg) (c : Claims) (s : MacValue),
      alg.isHMAC = true → s ≠ hmacCompute key alg c →
      ParseJWT key now ⟨alg, c, s⟩ = .error .invalid) ∧
    (t0 + T ≤ t →
      ParseJWT key t (GenerateJWT key t0 uid un T) = .error .expired) ∧
    TokenError.invalid ≠ TokenError.expired := by
  refine ⟨?_, parse_generate_expired_of_le key uid un t0 T t, by decide⟩
  intro now alg c s halg hs
  unfold ParseJWT
  rw [if_neg (by simp [halg]), if_pos (by simpa using hs)]

/-- Concrete runs of `ParseJWT_error_kinds_distinct`: a wrong-key signature
yields the invalid kind, an out-of-date token yields the expired kind. -/
theorem ParseJWT_error_kinds_distinct_witness :
    ParseJWT "k" 0 ⟨.HS256, ⟨"u", "n", 5, 0, 0⟩, ⟨"k2", .HS256, ⟨"u", "n", 5, 0, 0⟩⟩⟩ =
      .error .invalid ∧
    ParseJWT "k" 9 (GenerateJWT "k" 0 "u" "n" 5) = .error .expired :=
  ⟨(ParseJWT_error_kinds_distinct "k" "u" "n" 0 5 9).1 0 .HS256
      ⟨"u", "n", 5, 0, 0⟩ ⟨"k2", .HS256, ⟨"u", "n", 5, 0, 0⟩⟩ (by decide) (by decide),
   (ParseJWT_error_kinds_distinct "k" "u" "n" 0 5 9).2.1 (by decide)⟩

/-- Claim C1 (counterexample): a registration request with non-empty name,
email and password, against a directory that does not hold the email, and
with a working random source, still fails — with the 72-byte bcrypt error —
and performs no directory write, contradicting the claim that every such
request performs exactly one write and returns the sanitized identity. -/
theorem RegisterUser_overlong_secret_fails_without_write :
    RegisterUser true 0 7 0 [] ⟨"Ann", "ann@x.com", longSecret⟩ =
      (.error (.hashing .passwordTooLong), [], 0) ∧
    "Ann" ≠ "" ∧ "ann@x.com" ≠ "" ∧ longSecret ≠ "" ∧
    GetUserByEmail [] "ann@x.com" = .ok none := by decide

/-- Claim C1 (amended): `RegisterUser` fails with the validation error when
name, email or password is empty; fails with the already-exists error when
the directory holds a user whose stored email equals the request email
exactly; when the fields are non-empty, the email is absent, the random
source works and the password is within bcrypt's 72-byte limit, it performs
exactly one directory write appending a new user carrying the freshly
generated id and answers with that user's sanitized response (id, name,
email, created-at — no hash); and every failure outcome leaves the directory
unchanged with zero writes. -/
theorem RegisterUser_spec (entropyOk : Bool) (salt freshId now : Nat)
    (db : List User) (req : RegisterRequest) :
    ((req.name = "" ∨ req.email = "" ∨ req.password = "") →
      RegisterUser entropyOk salt freshId now db req =
        (.error .validationFailed, db, 0)) ∧
    (∀ u : User, req.name ≠ "" → req.email ≠ "" → req.password ≠ "" →
      GetUserByEmail db req.email = .ok (some u) →
      RegisterUser entropyOk salt freshId now db req =
        (.error .alreadyExists, db, 0)) ∧
    (req.name ≠ "" → req.email ≠ "" → req.password ≠ "" →
      GetUserByEmail db req.email = .ok none →
      entropyOk = true → req.password.utf8ByteSize ≤ 72 →
      ∃ u : User,
        RegisterUser entropyOk salt freshId now db req =
          (.ok u.ToUserResponse, db ++ [u], 1) ∧
        u.id = freshId ∧ u.name = req.name ∧ u.email = req.email ∧
        u.ToUserResponse = ⟨freshId, req.name, req.email, now⟩) ∧
    (∀ (e : RegError) (db2 : List User) (w : Nat),
      RegisterUser entropyOk salt freshId now db req = (.error e, db2, w) →
      db2 = db ∧ w = 0) := by
  refine ⟨?_, ?_, ?_, ?_⟩
  · intro h
    unfold RegisterUser
    rw [if_pos h]
  · intro u hn he hp hfind
    unfold RegisterUser
    rw [if_neg (by simp [hn, he, hp]), hfind]
  · intro hn he hp hfind hok h72
    refine ⟨⟨freshId, req.name, req.email, ⟨bcryptDefaultCost, salt, req.password⟩,
      now, now⟩, ?_, rfl, rfl, rfl, rfl⟩
    unfold RegisterUser
    rw [if_neg (by simp [hn, he, hp]), hfind]
    unfold NewUser GenerateFromPassword
    rw [if_neg (by omega), if_neg (by simp [hok])]
  · intro e db2 w h
    unfold RegisterUser at h
    split_ifs at h
    · simp only [Prod.mk.injEq] at h
      exact ⟨h.2.1.symm, h.2.2.symm⟩
    · split at h
      · simp only [Prod.mk.injEq] at h
        exact ⟨h.2.1.symm, h.2.2.symm⟩
      · simp only [Prod.mk.injEq] at h
        exact ⟨h.2.1.symm, h.2.2.symm⟩
      · split at h
        · simp only [Prod.mk.injEq] at h
          exact ⟨h.2.1.symm, h.2.2.symm⟩
        · simp only [Prod.mk.injEq] at h
          exact absurd h.1 (by simp)

/-- Concrete run of `RegisterUser_spec`: an empty name is rejected with the
validation error and no write. -/
theorem RegisterUser_spec_witness :
    RegisterUser true 0 0 0 [] ⟨"", "a@x.com", "pw"⟩ =
      (.error .validationFailed, [], 0) :=
  (RegisterUser_spec true 0 0 0 [] ⟨"", "a@x.com", "pw"⟩).1 (Or.inl rfl)

/-- Claim C2: a login naming an email absent from the directory and a login
naming a present email with a non-matching password both fail with the one
`invalidCredentials` error; the two returned values are identical, so the
caller gets no distinguishing signal. -/
theorem AuthenticateUser_invalid_credentials_indistinguishable
    (key1 key2 : String) (now1 now2 : Nat) (db1 db2 : List User)
    (r1 r2 : LoginRequest) (u : User)
    (h1e : r1.email ≠ "") (h1p : r1.password ≠ "")
    (h2e : r2.email ≠ "") (h2p : r2.password ≠ "")
    (habsent : GetUserByEmail db1 r1.email = .ok none)
    (hpresent : GetUserByEmail db2 r2.email = .ok (some u))
    (hwrong : u.CheckPassword r2.password = false) :
    AuthenticateUser key1 now1 db1 r1 = .error .invalidCredentials ∧
    AuthenticateUser key2 now2 db2 r2 = .error .invalidCredentials ∧
    AuthenticateUser key1 now1 db1 r1 = AuthenticateUser key2 now2 db2 r2 := by
  have hA : AuthenticateUser key1 now1 db1 r1 = .error .invalidCredentials := by
    unfold AuthenticateUser
    rw [if_neg (by simp [h1e, h1p]), habsent]
  have hB : AuthenticateUser key2 now2 db2 r2 = .error .invalidCredentials := by
    unfold AuthenticateUser
    rw [if_neg (by simp [h2e, h2p]), hpresent]
    simp [hwrong]
  exact ⟨hA, hB, hA.trans hB.symm⟩

/-- Concrete run of `AuthenticateUser_invalid_credentials_indistinguishable`:
against a directory holding only `real@x.com`, logging in as the unknown
`nonexistent@x.com` and logging in as `real@x.com` with a wrong password
return the identical `invalidCredentials` value. -/
theorem AuthenticateUser_invalid_credentials_indistinguishable_witness :
    AuthenticateUser "k" 0 [⟨1, "R", "real@x.com", ⟨10, 0, "rightpw"⟩, 0, 0⟩]
        ⟨"nonexistent@x.com", "anything"⟩ = .error .invalidCredentials ∧
    AuthenticateUser "k" 0 [⟨1, "R", "real@x.com", ⟨10, 0, "rightpw"⟩, 0, 0⟩]
        ⟨"real@x.com", "wrongpassword"⟩ = .error .invalidCredentials ∧
    AuthenticateUser "k" 0 [⟨1, "R", "real@x.com", ⟨10, 0, "rightpw"⟩, 0, 0⟩]
        ⟨"nonexistent@x.com", "anything"⟩ =
      AuthenticateUser "k" 0 [⟨1, "R", "real@x.com", ⟨10, 0, "rightpw"⟩, 0, 0⟩]
        ⟨"real@x.com", "wrongpassword"⟩ :=
  AuthenticateUser_invalid_credentials_indistinguishable "k" "k" 0 0
    [⟨1, "R", "real@x.com", ⟨10, 0, "rightpw"⟩, 0, 0⟩]
    [⟨1, "R", "real@x.com", ⟨10, 0, "rightpw"⟩, 0, 0⟩]
    ⟨"nonexistent@x.com", "anything"⟩ ⟨"real@x.com", "wrongpassword"⟩
    ⟨1, "R", "real@x.com", ⟨10, 0, "rightpw"⟩, 0, 0⟩
    (by decide) (by decide) (by decide) (by decide)
    (by decide) (by decide) (by decide)

/-- Claim C7 (code evidence): with `APP_ENV=production`, `DATABASE_URL` set
and `JWT_SECRET` absent, startup succeeds instead of failing fast, and the
process runs with the hardcoded signing key shipped in jwt.go. -/
theorem mainStartup_production_missing_key_uses_hardcoded :
    mainStartup ⟨"production", "postgres://db:5432/app", "", ""⟩ =
      .ok ⟨"production", "8080", "your-super-secret-jwt-key"⟩ ∧
    jwtSecret = "your-super-secret-jwt-key" := by decide

/-- Claim C8: the serialized `UserResponse` — the identity form returned by
registration, login and the user-retrieval endpoints — carries exactly the
keys `id`, `name`, `email`, `created_at`; the sanitized response of a user is
unchanged under any replacement of the stored password hash, so the hash
never reaches the serialized output; and the login response carries exactly
`token`, `user`, `expires_in_sec`. -/
theorem UserResponse_sanitized_serialization :
    (∀ r : UserResponse,
      jsonKeys (UserResponseJson r) = ["id", "name", "email", "created_at"]) ∧
    (∀ (u : User) (h : BcryptHash),
      User.ToUserResponse { u with passwordHash := h } = User.ToUserResponse u) ∧
    (∀ a : AuthResponse,
      jsonKeys (AuthResponseJson a) = ["token", "user", "expires_in_sec"]) ∧
    (∀ u : User, UserResponseJson u.ToUserResponse =
      .obj [("id", .num u.id), ("name", .str u.name), ("email", .str u.email),
            ("created_at", .num u.createdAt)]) :=
  ⟨fun _ => rfl, fun _ _ => rfl, fun _ => rfl, fun _ => rfl⟩

/-- Claim C10: when no stored row carries the given email, `GetUserByEmail`
answers `.ok none` — the Go `nil, nil`, absence without an error — and both
services treat that as not-found: `RegisterUser` never answers already-exists
or a repository error for that email, and `AuthenticateUser` answers the
`invalidCredentials` error without ever consulting the password check. -/
theorem GetUserByEmail_absent_is_ok_none (db : List User) (email : String)
    (habs : ∀ u ∈ db, u.email ≠ email) :
    GetUserByEmail db email = .ok none ∧
    (∀ (entropyOk : Bool) (salt freshId now : Nat) (name pw : String),
      (RegisterUser entropyOk salt freshId now db ⟨name, email, pw⟩).1 ≠
        .error .alreadyExists ∧
      ∀ e : RepoErr,
        (RegisterUser entropyOk salt freshId now db ⟨name, email, pw⟩).1 ≠
          .error (.repo e)) ∧
    (∀ (key : String) (now : Nat) (pw : String), email ≠ "" → pw ≠ "" →
      AuthenticateUser key now db ⟨email, pw⟩ = .error .invalidCredentials) := by
  have hnone : GetUserByEmail db email = .ok none := by
    unfold GetUserByEmail
    simp only [Except.ok.injEq]
    rw [List.find?_eq_none]
    intro u hu
    simpa using habs u hu
  refine ⟨hnone, ?_, ?_⟩
  · intro entropyOk salt freshId now name pw
    unfold RegisterUser
    split_ifs
    · exact ⟨by simp, fun e => by simp⟩
    · rw [hnone]
      constructor
      · split
        · rename_i heq
          exact absurd heq (by simp)
        · rename_i heq
          exact absurd heq (by simp)
        · split
          · simp
          · simp
      · intro e
        split
        · rename_i heq
          exact absurd heq (by simp)
        · rename_i heq
          exact absurd heq (by simp)
        · split
          · simp
          · simp
  · intro key now pw he hp
    unfold AuthenticateUser
    rw [if_neg (by simp [he, hp]), hnone]

/-- Concrete run of `GetUserByEmail_absent_is_ok_none`: a directory holding
only `b@x.com` answers `.ok none` for `a@x.com`, and login with that email is
rejected with `invalidCredentials`. -/
theorem GetUserByEmail_absent_is_ok_none_witness :
    GetUserByEmail [⟨1, "B", "b@x.com", ⟨10, 0, "pw"⟩, 0, 0⟩] "a@x.com" =
      .ok none ∧
    AuthenticateUser "k" 0 [⟨1, "B", "b@x.com", ⟨10, 0, "pw"⟩, 0, 0⟩]
      ⟨"a@x.com", "pw"⟩ = .error .invalidCredentials := by
  have h := GetUserByEmail_absent_is_ok_none
    [⟨1, "B", "b@x.com", ⟨10, 0, "pw"⟩, 0, 0⟩] "a@x.com" (by decide)
  exact ⟨h.1, h.2.2 "k" 0 "pw" (by decide) (by decide)⟩
